import Mathlib

/-!
# Verification of the Outlook-OpenAI triage-and-customization pipeline

A shallow embedding of the decision logic of `src/api/outlook_openai.py` and
`src/training_system.py`:

* the Intake Filter (`get_emails_needing_replies`, the threshold window test),
* the Duplicate/Reply Detector (`_check_for_draft_response`, `_check_for_replies`),
* the Domain Gate (`OpenAIHandler.should_process_email`),
* the Training Context Selector (`TrainingSystem.get_training_context`,
  `get_template_context`),
* the Response Compositor (`OpenAIHandler.generate_draft_response`,
  `TrainingSystem.generate_customized_response`),
* the email-type classifier (`TrainingSystem.analyze_email_type`),
* the scan driver (`OutlookOpenAIIntegration.process_emails`).

Modelling conventions:

* Timestamps are integers counting seconds (`datetime` values); a day is
  86400 seconds, and the Python `(now - received).days` computation is
  `Int.fdiv` (floor division), matching `timedelta.days` semantics.
* External collaborators (the Microsoft Graph provider, the OpenAI completion
  calls, `strftime` date formatting) are passed as explicit function
  parameters; the mailbox provider state is a `GraphState` record holding the
  message list (newest-first, as the provider returns it) and the drafts
  folder list (newest-first; newly created drafts are prepended).
* Python exceptions from a collaborator call are modelled by the
  corresponding oracle returning `none` (the code catches the exception and
  takes the same fallback path).
* Python truthiness on optional strings (`if email_type:`) is modelled by
  `pyTruthy`, which is false exactly for `None` and for the empty string.
-/

/-- `startsWithChars pat l` is true when `pat` is a prefix of `l`
(character-level model of Python substring search support). -/
def startsWithChars : List Char → List Char → Bool
  | [], _ => true
  | _ :: _, [] => false
  | p :: ps, c :: cs => p == c && startsWithChars ps cs

/-- `containsChars pat l` is true when `pat` occurs contiguously inside `l`;
model of the Python `pat in s` substring test. -/
def containsChars (pat : List Char) : List Char → Bool
  | [] => startsWithChars pat []
  | c :: rest => startsWithChars pat (c :: rest) || containsChars pat rest

/-- Python `pat in s` on strings. -/
def strContains (pat s : String) : Bool :=
  containsChars pat.data s.data

/-- One second-resolution day, the unit of `timedelta(days=1)`. -/
def secondsPerDay : Int := 86400

/-- The `Email` dataclass of `src/api/outlook_openai.py` (the fields selected
from a Graph message: id, subject, sender address, body, receivedDateTime,
isRead).  `received` is the receipt timestamp in seconds. -/
structure Msg where
  id : String
  subject : String
  sender : String
  body : String
  received : Int
  isRead : Bool
deriving DecidableEq

/-- The payload of `MicrosoftGraphAPI.create_draft`: subject, HTML body,
recipient addresses, optional replied-to message id. -/
structure Draft where
  subject : String
  body : String
  recipients : List String
  replyTo : Option String
deriving DecidableEq

/-- Provider-side mailbox state: the `/me/messages` listing (newest-first) and
the `/me/mailFolders/Drafts/messages` listing (newest-first). -/
structure GraphState where
  messages : List Msg
  drafts : List Draft
deriving DecidableEq

/-- The 7-day lookback fetch of `get_emails_needing_replies` (lines 84-98):
`$filter receivedDateTime ge now-7days`, `$top 100`, consumed in the order the
provider returns. -/
def fetchRecent (now : Int) (st : GraphState) : List Msg :=
  ((st.messages.filter (fun m => decide (now - 7 * secondsPerDay ≤ m.received))).take 100)

/-- The threshold-window test of `get_emails_needing_replies` line 114:
`email.received_date >= datetime.now() - timedelta(days=days_threshold)`. -/
def intakeKeep (now : Int) (threshold : Nat) (m : Msg) : Bool :=
  decide (now - (threshold : Int) * secondsPerDay ≤ m.received)

/-- The Intake Filter: fetched messages retained by the threshold-window test
(the `if email.received_date >= threshold_date` guard of the collection loop). -/
def intakeCandidates (now : Int) (threshold : Nat) (st : GraphState) : List Msg :=
  (fetchRecent now st).filter (intakeKeep now threshold)

/-- `MicrosoftGraphAPI._check_for_draft_response` (lines 157-182): list the
top 50 drafts and report whether any draft subject contains the email id, or
contains `"Re: " ++ email id`. -/
def check_for_draft_response (drafts : List Draft) (email_id : String) : Bool :=
  (drafts.take 50).any (fun d =>
    strContains email_id d.subject || strContains ("Re: " ++ email_id) d.subject)

/-- `MicrosoftGraphAPI._check_for_replies` (lines 133-155): query messages
whose subject equals `Re: <id>` or `RE: <id>` and whose receipt time is
strictly after the original receipt time (`$top 5`), and report non-emptiness. -/
def check_for_replies (messages : List Msg) (email_id : String) (original : Int) : Bool :=
  !(((messages.filter (fun m =>
      (m.subject == "Re: " ++ email_id || m.subject == "RE: " ++ email_id)
      && decide (original < m.received))).take 5).isEmpty)

/-- `MicrosoftGraphAPI.get_emails_needing_replies` (lines 81-127): the fetched
messages inside the threshold window that have neither a matching draft nor a
detected reply, in fetch order. -/
def get_emails_needing_replies (now : Int) (threshold : Nat) (st : GraphState) : List Msg :=
  (intakeCandidates now threshold st).filter (fun e =>
    !(check_for_draft_response st.drafts e.id) && !(check_for_replies st.messages e.id e.received))

/-- The characters after the last `'@'` of a character list, or the whole list
when no `'@'` occurs: the value of Python `sender.split('@')[-1]`. -/
def afterLastAt : List Char → List Char
  | [] => []
  | c :: rest =>
    if rest.contains '@' then afterLastAt rest
    else if c == '@' then rest
    else c :: rest

/-- `email.sender.split('@')[-1]` of `should_process_email` line 224. -/
def senderDomain (sender : String) : String :=
  String.mk (afterLastAt sender.data)

/-- `OpenAIHandler.should_process_email` (lines 219-225), applied to the
email's sender address: accept everything when the allow-list is empty,
otherwise test exact (case-sensitive) membership of the sender domain. -/
def should_process_email (allowed : List String) (sender : String) : Bool :=
  if allowed.isEmpty then true
  else decide (senderDomain sender ∈ allowed)

/-- Python `str.split(sep)` for a one-character separator (empty pieces
preserved, the empty string splitting to one empty piece). -/
def splitOnChar (sep : Char) : List Char → List (List Char)
  | [] => [[]]
  | c :: rest =>
    match splitOnChar sep rest with
    | [] => if c == sep then [[], []] else [[c]]
    | h :: t => if c == sep then [] :: h :: t else (c :: h) :: t

/-- The `OpenAIHandler.__init__` allow-list construction (line 217):
`os.getenv('ALLOWED_DOMAINS', '').split(',') if os.getenv('ALLOWED_DOMAINS')
else []` — unset or empty environment value yields the empty list. -/
def allowedDomains (env : Option String) : List String :=
  match env with
  | none => []
  | some s => if s == "" then [] else (splitOnChar ',' s.data).map String.mk

/-- The `TrainingExample` dataclass of `src/training_system.py` (lines 23-35);
`created_date` is the creation timestamp in seconds. -/
structure TrainingExample where
  original_email : String
  your_response : String
  email_type : String
  tone : String
  key_points : List String
  created_date : Int
deriving DecidableEq

/-- The `ResponseTemplate` dataclass of `src/training_system.py` (lines 37-49);
`vars` is the `variables` field of the dataclass (the word is reserved in
Lean). -/
structure ResponseTemplate where
  name : String
  email_type : String
  tone : String
  template : String
  vars : List String
  created_date : Int
deriving DecidableEq

/-- Python truthiness of an optional string: false exactly for `None` and `""`. -/
def pyTruthy : Option String → Bool
  | none => false
  | some s => !(s == "")

/-- Python `x or d` on an optional string `x` with string default `d`. -/
def pyOr (o : Option String) (d : String) : String :=
  match o with
  | none => d
  | some s => if s == "" then d else s

/-- The default whitespace set of Python `str.strip()`: space, tab, newline,
carriage return, vertical tab, form feed. -/
def isSpaceChar (c : Char) : Bool :=
  c == ' ' || c == '\t' || c == '\n' || c == '\r' || c == '\x0b' || c == '\x0c'

/-- Python `s.strip()`: remove leading and trailing whitespace. -/
def pyStrip (s : String) : String :=
  String.mk (((s.data.dropWhile isSpaceChar).reverse.dropWhile isSpaceChar).reverse)

/-- ASCII lower-casing of one character, agreeing with Python `str.lower()`
on ASCII text. -/
def lowerChar (c : Char) : Char :=
  if 'A' ≤ c && c ≤ 'Z' then Char.ofNat (c.toNat + 32) else c

/-- Python `s.lower()` (ASCII case mapping). -/
def pyLower (s : String) : String :=
  String.mk (s.data.map lowerChar)

/-- The sequential tag filters of `get_training_context` (lines 145-149):
filter by email type when the type argument is truthy, then by tone when the
tone argument is truthy. -/
def filteredExamples (examples : List TrainingExample) (etype tone : Option String) :
    List TrainingExample :=
  let f1 := if pyTruthy etype then examples.filter (fun e => e.email_type == etype.getD "")
            else examples
  if pyTruthy tone then f1.filter (fun e => e.tone == tone.getD "") else f1

/-- Python `', '.join(items)`. -/
def joinComma (l : List String) : String := String.intercalate ", " l

/-- The per-example record rendered by `get_training_context` (lines 157-161),
with its 1-based index. -/
def exampleRecord (i : Nat) (e : TrainingExample) : String :=
  "Example " ++ toString i ++ ":\n"
  ++ "Original Email: " ++ e.original_email ++ "\n"
  ++ "Your Response: " ++ e.your_response ++ "\n"
  ++ "Type: " ++ e.email_type ++ ", Tone: " ++ e.tone ++ "\n"
  ++ "Key Points: " ++ joinComma e.key_points ++ "\n\n"

/-- The `enumerate(filtered_examples[:5], 1)` rendering loop of
`get_training_context`, starting at index `i`. -/
def renderExamples (i : Nat) : List TrainingExample → String
  | [] => ""
  | e :: rest => exampleRecord i e ++ renderExamples (i + 1) rest

/-- `TrainingSystem.get_training_context` (lines 139-163): empty string when
there are no examples or the tag filters leave none, otherwise a header plus
the records of the first five filtered examples. -/
def get_training_context (examples : List TrainingExample) (etype tone : Option String) :
    String :=
  if examples.isEmpty then ""
  else
    let filtered := filteredExamples examples etype tone
    if filtered.isEmpty then ""
    else "Based on these training examples, generate similar responses:\n\n"
         ++ renderExamples 1 (filtered.take 5)

/-- The per-template record rendered by `get_template_context` (lines 180-183). -/
def templateRecord (t : ResponseTemplate) : String :=
  "Template: " ++ t.name ++ "\n"
  ++ "Type: " ++ t.email_type ++ ", Tone: " ++ t.tone ++ "\n"
  ++ "Template: " ++ t.template ++ "\n"
  ++ "Variables: " ++ joinComma t.vars ++ "\n\n"

/-- `TrainingSystem.get_template_context` (lines 165-185): empty string when
there are no templates or the type filter leaves none, otherwise a header plus
the records of the first three filtered templates. -/
def get_template_context (templates : List ResponseTemplate) (etype : Option String) :
    String :=
  if templates.isEmpty then ""
  else
    let filtered := if pyTruthy etype then
        templates.filter (fun t => t.email_type == etype.getD "")
      else templates
    if filtered.isEmpty then ""
    else "Use these response templates as guidance:\n\n"
         ++ String.join ((filtered.take 3).map templateRecord)

/-- The prompt template of `TrainingSystem.generate_customized_response`
(lines 195-216), with the two context blocks, the email body, the age and the
tag defaults interpolated. -/
def customizedPrompt (training_context template_context email_content : String)
    (etype tone : Option String) (days_old : Int) : String :=
  "\nYou are a professional email assistant. Generate a response to the following email.\n\n"
  ++ (training_context
  ++ ("\n"
  ++ (template_context
  ++ ("\n\nOriginal Email:\n"
  ++ (email_content
  ++ ("\n\nEmail Age: "
  ++ (toString days_old
  ++ (" days old\nEmail Type: "
  ++ (pyOr etype "general"
  ++ ("\nDesired Tone: "
  ++ (pyOr tone "professional"
  ++ "\n\nPlease generate a response that:\n1. Acknowledges the delay if the email is old\n2. Addresses the content appropriately\n3. Matches the tone and style of the training examples\n4. Uses templates as guidance when applicable\n5. Is professional and courteous\n\nResponse:\n")))))))))))

/-- The system message of the `generate_customized_response` completion call
(line 221). -/
def customizedSystemMsg : String :=
  "You are a professional email assistant that learns from training examples and templates."

/-- `TrainingSystem.generate_customized_response` (lines 187-232): build the
context blocks and the prompt, invoke the completion provider (`complete`
takes the system message and the user prompt; `none` models a raised
exception, which the code catches and turns into `None`), and strip the
result. -/
def generate_customized_response (complete : String → String → Option String)
    (examples : List TrainingExample) (templates : List ResponseTemplate)
    (email_content : String) (etype tone : Option String) (days_old : Int) :
    Option String :=
  let training_context := get_training_context examples etype tone
  let template_context := get_template_context templates etype
  (complete customizedSystemMsg
      (customizedPrompt training_context template_context email_content etype tone days_old)).map
    pyStrip

/-- The classification prompt of `TrainingSystem.analyze_email_type`
(lines 237-249). -/
def classifyPrompt (email_content : String) : String :=
  "\nAnalyze this email and classify it into one of these types:\n- inquiry (asking for information)\n- complaint (expressing dissatisfaction)\n- follow-up (checking on previous communication)\n- request (asking for action)\n- general (general communication)\n\nEmail content:\n"
  ++ (email_content
  ++ "\n\nRespond with just the type (e.g., \"inquiry\"):\n")

/-- `TrainingSystem.analyze_email_type` (lines 234-264): on a successful
completion return the output stripped and lower-cased; on a failed call
(`none`, modelling the caught exception) return `"general"`. -/
def analyze_email_type (classify : String → Option String) (email_content : String) :
    String :=
  match classify (classifyPrompt email_content) with
  | some out => pyLower (pyStrip out)
  | none => "general"

/-- The Python `(datetime.now() - email.received_date).days` age computation
(`generate_draft_response` line 230): floor division of the elapsed seconds by
one day, matching `timedelta.days`. -/
def emailAge (now : Int) (e : Msg) : Int :=
  Int.fdiv (now - e.received) secondsPerDay

/-- The same-day fallback prompt of `OpenAIHandler.generate_draft_response`
(lines 260-279), used when `days_old == 0`; `fmt` models
`strftime('%Y-%m-%d %H:%M')`. -/
def promptNew (fmt : Int → String) (e : Msg) : String :=
  "\nYou are a professional email assistant. Generate a polite and professional response to the following email that was received today.\n\nOriginal Email:\nFrom: "
  ++ (e.sender
  ++ ("\nSubject: "
  ++ (e.subject
  ++ ("\nReceived: "
  ++ (fmt e.received
  ++ ("\n\nContent:\n"
  ++ (e.body
  ++ "\n\nPlease generate a response that:\n1. Acknowledges the email promptly\n2. Addresses any questions or concerns raised in the original email\n3. Maintains a professional and courteous tone\n4. Is concise but comprehensive\n5. Includes a proper greeting and closing\n\nResponse:\n")))))))

/-- The aged-email fallback prompt of `OpenAIHandler.generate_draft_response`
(lines 280-303), used when `days_old` is non-zero: it acknowledges the
delay, states the day count, and asks for an apology. -/
def promptOld (fmt : Int → String) (e : Msg) (days_old : Int) : String :=
  "\nYou are a professional email assistant. Generate a polite and professional response to the following email that was received "
  ++ (toString days_old
  ++ (" days ago.\n\nOriginal Email:\nFrom: "
  ++ (e.sender
  ++ ("\nSubject: "
  ++ (e.subject
  ++ ("\nReceived: "
  ++ (fmt e.received
  ++ ("\nAge: "
  ++ (toString days_old
  ++ (" days old\n\nContent:\n"
  ++ (e.body
  ++ ("\n\nPlease generate a response that:\n1. Acknowledges the delay in responding (since the email is "
  ++ (toString days_old
  ++ " days old)\n2. Apologizes for the late response\n3. Addresses any questions or concerns raised in the original email\n4. Maintains a professional and courteous tone\n5. Is concise but comprehensive\n6. Includes a proper greeting and closing\n\nResponse:\n")))))))))))))

/-- The system message of the fallback completion call (line 308). -/
def fallbackSystemMsg : String :=
  "You are a professional email assistant that writes clear, polite, and professional email responses."

/-- The fallback branch of `generate_draft_response` (lines 257-317): pick the
same-day or the aged prompt by `days_old == 0`, invoke the completion
provider, and strip the result (`none` models a raised provider error, caught
at line 319 and returned as `None`). -/
def fallbackDraft (complete : String → String → Option String) (fmt : Int → String)
    (now : Int) (e : Msg) : Option String :=
  let days_old := emailAge now e
  let prompt := if days_old == 0 then promptNew fmt e else promptOld fmt e days_old
  (complete fallbackSystemMsg prompt).map pyStrip

/-- `OpenAIHandler.generate_draft_response` (lines 227-321): when the training
system is importable (`tsAvailable`), classify the body and try
`generate_customized_response` with the default `"professional"` tone; a
truthy result is returned as-is, while an unavailable training system, a
raised training-path exception (modelled by `tsAvailable = false`), a `None`
result or an empty-string result all fall through to the default
(`fallbackDraft`) generation.

`trainingAttempt` is the training-system path of lines 232-255: when the
training system is importable, classify the body and call
`generate_customized_response` with the default `"professional"` tone; an
unavailable module or a raised constructor exception is modelled by
`tsAvailable = false`. -/
def trainingAttempt (tsAvailable : Bool)
    (examples : List TrainingExample) (templates : List ResponseTemplate)
    (classify : String → Option String) (complete : String → String → Option String)
    (now : Int) (e : Msg) : Option String :=
  if tsAvailable then
    generate_customized_response complete examples templates e.body
      (some (analyze_email_type classify e.body)) (some "professional") (emailAge now e)
  else none

/-- The result dispatch of `generate_draft_response`: a truthy training-path
result (line 248) is returned as-is; `None` or the empty string falls through
to the default generation. -/
def generate_draft_response (tsAvailable : Bool)
    (examples : List TrainingExample) (templates : List ResponseTemplate)
    (classify : String → Option String) (complete : String → String → Option String)
    (fmt : Int → String) (now : Int) (e : Msg) : Option String :=
  match trainingAttempt tsAvailable examples templates classify complete now e with
  | some d => if d == "" then fallbackDraft complete fmt now e else some d
  | none => fallbackDraft complete fmt now e

/-- The draft payload built by `process_emails` lines 369-375:
subject `Re: <original subject>`, the generated body, the sender as the only
recipient, the original message id as the replied-to id. -/
def mkDraft (e : Msg) (body : String) : Draft :=
  { subject := "Re: " ++ e.subject, body := body,
    recipients := [e.sender], replyTo := some e.id }

/-- The error string of `process_emails` line 383. -/
def genErrMsg (e : Msg) : String :=
  "Failed to generate draft response for email: " ++ e.subject

/-- The error string of `process_emails` line 381. -/
def createErrMsg (e : Msg) : String :=
  "Failed to create draft for email: " ++ e.subject

/-- The per-email loop of `OutlookOpenAIIntegration.process_emails`
(lines 357-389): skip senders rejected by the Domain Gate; on a truthy
generated draft attempt creation (success increments the count and prepends
the new draft to the provider's drafts folder; failure records the creation
error); a falsy generation result records the generation error.  `gen` models
`generate_draft_response` for the run, `createOk` models the outcome of the
`create_draft` provider call.  Returns the processed count, the error list in
loop order, and the final provider state. -/
def processLoop (allowed : List String) (gen : Msg → Option String)
    (createOk : Msg → Bool) : List Msg → GraphState → Nat × List String × GraphState
  | [], st => (0, [], st)
  | e :: rest, st =>
    if should_process_email allowed e.sender then
      match gen e with
      | some d =>
        if d == "" then
          let r := processLoop allowed gen createOk rest st
          (r.1, genErrMsg e :: r.2.1, r.2.2)
        else if createOk e then
          let r := processLoop allowed gen createOk rest
            { st with drafts := mkDraft e d :: st.drafts }
          (r.1 + 1, r.2.1, r.2.2)
        else
          let r := processLoop allowed gen createOk rest st
          (r.1, createErrMsg e :: r.2.1, r.2.2)
      | none =>
        let r := processLoop allowed gen createOk rest st
        (r.1, genErrMsg e :: r.2.1, r.2.2)
    else processLoop allowed gen createOk rest st

/-- The per-scan aggregate dictionary built by `process_emails`
(lines 333-338). -/
structure ProcessingResult where
  success : Bool
  processed_count : Nat
  errors : List String
  message : String
deriving DecidableEq

/-- `OutlookOpenAIIntegration.process_emails` (lines 331-400): an
authentication failure aborts with `success = false`; an empty candidate set
short-circuits with `success = true`; otherwise the loop runs and the result
reports `success = true`, the processed count and the accumulated errors.
Returns the result together with the final provider state. -/
def process_emails (authOk : Bool) (now : Int) (threshold : Nat)
    (allowed : List String) (gen : Msg → Option String) (createOk : Msg → Bool)
    (st : GraphState) : ProcessingResult × GraphState :=
  if !authOk then
    ({ success := false, processed_count := 0, errors := [],
       message := "Failed to authenticate with Microsoft Graph API" }, st)
  else
    let emails := get_emails_needing_replies now threshold st
    if emails.isEmpty then
      ({ success := true, processed_count := 0, errors := [],
         message := "No emails found needing replies" }, st)
    else
      let r := processLoop allowed gen createOk emails st
      ({ success := true, processed_count := r.1, errors := r.2.1,
         message := "Email processing cycle completed. Processed " ++ toString r.1
                    ++ " emails." }, r.2.2)

/-- Whether `gen` yields a truthy draft for `e`: the `if draft_response:` test
of `process_emails` line 367. -/
def draftGenOk (gen : Msg → Option String) (e : Msg) : Bool :=
  match gen e with
  | some d => !(d == "")
  | none => false

/-- The single error string `process_emails` records for a gate-passing email
whose draft was not created: the creation error when generation succeeded, the
generation error otherwise. -/
def emailErrMsg (gen : Msg → Option String) (createOk : Msg → Bool) (e : Msg) : String :=
  if draftGenOk gen e && !(createOk e) then createErrMsg e else genErrMsg e

/-- A candidate counted by `processed_count`: it passes the Domain Gate, `gen`
yields a truthy draft, and draft creation succeeds. -/
def emailHandled (allowed : List String) (gen : Msg → Option String)
    (createOk : Msg → Bool) (e : Msg) : Bool :=
  should_process_email allowed e.sender && draftGenOk gen e && createOk e

/-- A candidate that contributes an error entry: it passes the Domain Gate but
generation or creation fails. -/
def emailFailed (allowed : List String) (gen : Msg → Option String)
    (createOk : Msg → Bool) (e : Msg) : Bool :=
  should_process_email allowed e.sender && !(draftGenOk gen e && createOk e)

/-- Whether two timestamps fall on the same calendar day (day number by floor
division, the day boundary of `timedelta` arithmetic). -/
def sameDay (a b : Int) : Bool :=
  Int.fdiv a secondsPerDay == Int.fdiv b secondsPerDay

theorem afterLastAt_no_at (l : List Char) (h : '@' ∉ l) : afterLastAt l = l := by
  induction l with
  | nil => rfl
  | cons c rest ih =>
    have hc : ¬(c = '@') := fun hc => h (hc ▸ List.mem_cons_self c rest)
    have hr : '@' ∉ rest := fun hr => h (List.mem_cons_of_mem c hr)
    simp [afterLastAt, hc, hr]

theorem afterLastAt_append (l dom : List Char) (h : '@' ∉ dom) :
    afterLastAt (l ++ '@' :: dom) = dom := by
  induction l with
  | nil => simp [afterLastAt, h]
  | cons c rest ih =>
    have hm : '@' ∈ rest ++ '@' :: dom :=
      List.mem_append_right rest (List.mem_cons_self _ _)
    simp [afterLastAt, hm, ih]

/-- C7: the Domain Gate is a pure total predicate: with an empty or unset
allow-list every sender is accepted; with a configured comma-separated
allow-list, a sender of the well-formed shape `local@domain` is accepted if
and only if the substring after the `'@'` is a case-sensitive exact member of
the allow-list; in particular under allow-list `a.com,b.com` the sender
`x@a.com` is accepted and `x@c.com` is rejected. -/
theorem c7_domain_gate (env : Option String) (s : String) :
    (allowedDomains env = [] → should_process_email (allowedDomains env) s = true)
    ∧ (∀ loc dom : List Char, s.data = loc ++ '@' :: dom → '@' ∉ loc → '@' ∉ dom →
        allowedDomains env ≠ [] →
        (should_process_email (allowedDomains env) s = true
          ↔ String.mk dom ∈ allowedDomains env))
    ∧ should_process_email (allowedDomains (some "a.com,b.com")) "x@a.com" = true
    ∧ should_process_email (allowedDomains (some "a.com,b.com")) "x@c.com" = false := by
  refine ⟨?_, ?_, by decide, by decide⟩
  · intro h
    simp [should_process_email, h]
  · intro loc dom hs _hloc hdom hne
    have hd : senderDomain s = String.mk dom := by
      unfold senderDomain
      rw [hs, afterLastAt_append _ _ hdom]
    cases henv : allowedDomains env with
    | nil => exact absurd henv hne
    | cons a t =>
      simp [should_process_email, henv, hd]

theorem c7_domain_gate_witness :
    should_process_email (allowedDomains (some "a.com,b.com")) "x@a.com" = true
      ↔ String.mk "a.com".data ∈ allowedDomains (some "a.com,b.com") :=
  (c7_domain_gate (some "a.com,b.com") "x@a.com").2.1 "x".data "a.com".data
    (by decide) (by decide) (by decide) (by decide)

/-- C10: the Domain Gate never fails on malformed senders: with no `'@'` in
the sender the compared domain is the entire sender string (so such a sender
is accepted exactly when the allow-list is empty or the whole string is an
entry), and with any number of `'@'` characters the compared domain is the
substring after the last `'@'`. -/
theorem c10_domain_gate_malformed (s : String) :
    (('@' ∉ s.data) → senderDomain s = s)
    ∧ (∀ l dom : List Char, s.data = l ++ '@' :: dom → '@' ∉ dom →
        senderDomain s = String.mk dom)
    ∧ (∀ allowed : List String, allowed ≠ [] → ('@' ∉ s.data) →
        (should_process_email allowed s = true ↔ s ∈ allowed)) := by
  refine ⟨?_, ?_, ?_⟩
  · intro h
    cases s with
    | mk d =>
      unfold senderDomain
      simp only []
      rw [afterLastAt_no_at d h]
  · intro l dom hs hdom
    unfold senderDomain
    rw [hs, afterLastAt_append _ _ hdom]
  · intro allowed hne h
    have hd : senderDomain s = s := by
      cases s with
      | mk d =>
        unfold senderDomain
        rw [afterLastAt_no_at d h]
    cases hal : allowed with
    | nil => exact absurd hal hne
    | cons a t =>
      simp [should_process_email, hal, hd]

theorem c10_domain_gate_malformed_witness :
    senderDomain "a@b@c.com" = String.mk "c.com".data
    ∧ (should_process_email ["noatsign"] "noatsign" = true ↔ "noatsign" ∈ ["noatsign"]) :=
  ⟨(c10_domain_gate_malformed "a@b@c.com").2.1 "a@b".data "c.com".data (by decide) (by decide),
   (c10_domain_gate_malformed "noatsign").2.2 ["noatsign"] (by decide) (by decide)⟩

/-- C4: for every fetched email, the Intake Filter excludes it when its
receipt time is strictly before `now - thresholdDays` and includes it when
its receipt time is at or after `now - thresholdDays`; the boundary instant
itself is included. -/
theorem c4_intake_boundary (now : Int) (th : Nat) (st : GraphState) (e : Msg)
    (h : e ∈ fetchRecent now st) :
    (e.received < now - (th : Int) * secondsPerDay → e ∉ intakeCandidates now th st)
    ∧ (now - (th : Int) * secondsPerDay ≤ e.received → e ∈ intakeCandidates now th st)
    ∧ (e.received = now - (th : Int) * secondsPerDay → e ∈ intakeCandidates now th st) := by
  refine ⟨?_, ?_, ?_⟩
  · intro hlt hmem
    rw [intakeCandidates, List.mem_filter] at hmem
    have h2 := hmem.2
    simp only [intakeKeep, decide_eq_true_eq] at h2
    omega
  · intro hle
    rw [intakeCandidates, List.mem_filter]
    exact ⟨h, by simp only [intakeKeep, decide_eq_true_eq]; omega⟩
  · intro heq
    rw [intakeCandidates, List.mem_filter]
    exact ⟨h, by simp only [intakeKeep, decide_eq_true_eq]; omega⟩

def c4wEmail : Msg :=
  { id := "W4", subject := "Boundary", sender := "w@a.com", body := "hi",
    received := 518400, isRead := false }

def c4wState : GraphState := { messages := [c4wEmail], drafts := [] }

theorem c4_intake_boundary_witness :
    c4wEmail ∈ intakeCandidates 864000 4 c4wState :=
  (c4_intake_boundary 864000 4 c4wState c4wEmail (by decide)).2.2 (by decide)

/-- C5 (amended): with a threshold of 0 days the Intake Filter retains
exactly the fetched emails whose receipt time is at or after the current
instant `now`, not all emails received on the current calendar day. -/
theorem c5_threshold_zero (now : Int) (st : GraphState) (e : Msg)
    (h : e ∈ fetchRecent now st) :
    e ∈ intakeCandidates now 0 st ↔ now ≤ e.received := by
  rw [intakeCandidates, List.mem_filter]
  simp only [intakeKeep, decide_eq_true_eq, h, true_and]
  omega

def c5email : Msg :=
  { id := "B", subject := "Morning", sender := "y@b.com", body := "hey",
    received := 864000, isRead := false }

def c5state : GraphState := { messages := [c5email], drafts := [] }

theorem c5_today_only_cex :
    sameDay c5email.received 867600 = true
    ∧ c5email ∈ fetchRecent 867600 c5state
    ∧ c5email ∉ intakeCandidates 867600 0 c5state := by decide

theorem c5_threshold_zero_witness :
    c5email ∈ intakeCandidates 867600 0 c5state ↔ (867600 : Int) ≤ c5email.received :=
  c5_threshold_zero 867600 c5state c5email (by decide)

/-- C9 (amended): the email-type classifier returns `general` whenever the
completion call fails; on a successful call it returns the output stripped
and lower-cased verbatim, whether or not the output is one of the recognized
labels (unrecognized output is not replaced by `general`). -/
theorem c9_classifier_default (classify : String → Option String) (content : String) :
    (classify (classifyPrompt content) = none →
      analyze_email_type classify content = "general")
    ∧ (∀ s, classify (classifyPrompt content) = some s →
        analyze_email_type classify content = pyLower (pyStrip s)) := by
  constructor
  · intro h
    simp [analyze_email_type, h]
  · intro s h
    simp [analyze_email_type, h]

theorem c9_classifier_default_witness :
    analyze_email_type (fun _ => none) "hello" = "general" :=
  (c9_classifier_default (fun _ => none) "hello").1 rfl

theorem c9_classifier_cex :
    analyze_email_type (fun _ => some "Weather report") "hello" = "weather report"
    ∧ "weather report" ∉
        (["inquiry", "complaint", "follow-up", "request", "general"] : List String) := by
  constructor
  · decide
  · decide

theorem filteredExamples_eq (examples : List TrainingExample) (t o : String)
    (ht : t ≠ "") (ho : o ≠ "") :
    filteredExamples examples (some t) (some o)
      = examples.filter (fun e => e.email_type == t && e.tone == o) := by
  have htt : pyTruthy (some t) = true := by simp [pyTruthy, ht]
  have hot : pyTruthy (some o) = true := by simp [pyTruthy, ho]
  unfold filteredExamples
  simp only [htt, hot, if_true, Option.getD_some]
  rw [List.filter_filter]
  apply List.filter_congr
  intro e _
  rw [Bool.and_comm]

/-- A training example of the C6 selection scenario. -/
def c6ex (i : Nat) (ty tn : String) : TrainingExample :=
  { original_email := "orig " ++ toString i, your_response := "resp " ++ toString i,
    email_type := ty, tone := tn, key_points := ["point " ++ toString i],
    created_date := Int.ofNat i }

/-- Six stored examples of type `inquiry`/tone `professional` and two of
other types, interleaved. -/
def c6examples : List TrainingExample :=
  [c6ex 1 "inquiry" "professional", c6ex 2 "inquiry" "professional",
   c6ex 3 "complaint" "friendly", c6ex 4 "inquiry" "professional",
   c6ex 5 "inquiry" "professional", c6ex 6 "inquiry" "professional",
   c6ex 7 "follow-up" "formal", c6ex 8 "inquiry" "professional"]

/-- C6: for a provided email-type tag and tone tag, the examples block is
built from exactly the stored examples whose type and tone both match, capped
at the first 5 matches in storage order and preserving that order; an empty
filter result yields the empty block with no fallback to unfiltered examples;
and in the 6-matching-plus-2-other scenario the selection is exactly the
first 5 matching records in storage order. -/
theorem c6_training_selector (examples : List TrainingExample) (t o : String)
    (ht : t ≠ "") (ho : o ≠ "") :
    ((filteredExamples examples (some t) (some o)).take 5
      = (examples.filter (fun e => e.email_type == t && e.tone == o)).take 5)
    ∧ (examples.filter (fun e => e.email_type == t && e.tone == o) = [] →
        get_training_context examples (some t) (some o) = "")
    ∧ (examples.filter (fun e => e.email_type == t && e.tone == o) ≠ [] →
        get_training_context examples (some t) (some o)
          = "Based on these training examples, generate similar responses:\n\n"
            ++ renderExamples 1
                ((examples.filter (fun e => e.email_type == t && e.tone == o)).take 5))
    ∧ (filteredExamples c6examples (some "inquiry") (some "professional")).take 5
        = [c6ex 1 "inquiry" "professional", c6ex 2 "inquiry" "professional",
           c6ex 4 "inquiry" "professional", c6ex 5 "inquiry" "professional",
           c6ex 6 "inquiry" "professional"] := by
  refine ⟨by rw [filteredExamples_eq examples t o ht ho], ?_, ?_, by decide⟩
  · intro hempty
    by_cases hex : examples.isEmpty
    · simp [get_training_context, hex]
    · simp [get_training_context, hex, filteredExamples_eq examples t o ht ho, hempty]
  · intro hne
    have hex : examples.isEmpty = false := by
      cases hx : examples with
      | nil => subst hx; simp at hne
      | cons a l => rfl
    have hfe : (examples.filter (fun e => e.email_type == t && e.tone == o)).isEmpty
        = false := by
      cases hx : examples.filter (fun e => e.email_type == t && e.tone == o) with
      | nil => exact absurd hx hne
      | cons a l => rfl
    simp [get_training_context, hex, filteredExamples_eq examples t o ht ho, hfe]

theorem c6_training_selector_witness :
    (filteredExamples c6examples (some "inquiry") (some "professional")).take 5
      = [c6ex 1 "inquiry" "professional", c6ex 2 "inquiry" "professional",
         c6ex 4 "inquiry" "professional", c6ex 5 "inquiry" "professional",
         c6ex 6 "inquiry" "professional"] :=
  (c6_training_selector c6examples "inquiry" "professional"
    (by decide) (by decide)).2.2.2

theorem take_five_isEmpty (l : List Msg) : (l.take 5).isEmpty = l.isEmpty := by
  cases l <;> rfl

theorem check_for_draft_response_iff (drafts : List Draft) (email_id : String) :
    check_for_draft_response drafts email_id = true
      ↔ ∃ d ∈ drafts.take 50,
          strContains email_id d.subject = true
          ∨ strContains ("Re: " ++ email_id) d.subject = true := by
  simp [check_for_draft_response, List.any_eq_true]

theorem check_for_replies_iff (messages : List Msg) (email_id : String) (original : Int) :
    check_for_replies messages email_id original = true
      ↔ ∃ m ∈ messages,
          (m.subject = "Re: " ++ email_id ∨ m.subject = "RE: " ++ email_id)
          ∧ original < m.received := by
  rw [check_for_replies, take_five_isEmpty, Bool.not_eq_true']
  constructor
  · intro h
    cases hx : messages.filter (fun m =>
        (m.subject == "Re: " ++ email_id || m.subject == "RE: " ++ email_id)
        && decide (original < m.received)) with
    | nil => rw [hx] at h; simp at h
    | cons a l =>
      have ha : a ∈ messages.filter (fun m =>
          (m.subject == "Re: " ++ email_id || m.subject == "RE: " ++ email_id)
          && decide (original < m.received)) := hx ▸ List.mem_cons_self a l
      rw [List.mem_filter] at ha
      refine ⟨a, ha.1, ?_⟩
      have := ha.2
      simp only [Bool.and_eq_true, Bool.or_eq_true, beq_iff_eq, decide_eq_true_eq] at this
      exact this
  · rintro ⟨m, hm, hsub, hlt⟩
    cases hx : messages.filter (fun m =>
        (m.subject == "Re: " ++ email_id || m.subject == "RE: " ++ email_id)
        && decide (original < m.received)) with
    | cons a l => rfl
    | nil =>
      exfalso
      have : m ∈ messages.filter (fun m =>
          (m.subject == "Re: " ++ email_id || m.subject == "RE: " ++ email_id)
          && decide (original < m.received)) := by
        rw [List.mem_filter]
        refine ⟨hm, ?_⟩
        simp only [Bool.and_eq_true, Bool.or_eq_true, beq_iff_eq, decide_eq_true_eq]
        exact ⟨hsub, hlt⟩
      rw [hx] at this
      simp at this

/-- C3: a candidate email inside the intake window is excluded from the
needing-reply set if and only if either some draft among the top 50 has a
subject containing the candidate's identifier verbatim or as
`Re: <identifier>`, or some message has subject exactly `Re: <identifier>` or
`RE: <identifier>` with receipt time strictly after the candidate's; a
candidate with neither flag survives into the result list. -/
theorem c3_dup_reply_detector (now : Int) (th : Nat) (st : GraphState) (e : Msg)
    (hf : e ∈ fetchRecent now st) (hw : intakeKeep now th e = true) :
    e ∈ get_emails_needing_replies now th st
      ↔ ¬((∃ d ∈ st.drafts.take 50,
            strContains e.id d.subject = true
            ∨ strContains ("Re: " ++ e.id) d.subject = true)
         ∨ (∃ m ∈ st.messages,
            (m.subject = "Re: " ++ e.id ∨ m.subject = "RE: " ++ e.id)
            ∧ e.received < m.received)) := by
  have hcand : e ∈ intakeCandidates now th st := by
    rw [intakeCandidates, List.mem_filter]
    exact ⟨hf, hw⟩
  rw [get_emails_needing_replies, List.mem_filter]
  simp only [hcand, true_and, Bool.and_eq_true, Bool.not_eq_true']
  rw [← check_for_draft_response_iff st.drafts e.id,
    ← check_for_replies_iff st.messages e.id e.received]
  constructor
  · rintro ⟨h1, h2⟩ (hA | hB)
    · rw [h1] at hA; exact Bool.false_ne_true hA
    · rw [h2] at hB; exact Bool.false_ne_true hB
  · intro hnot
    constructor
    · cases hc : check_for_draft_response st.drafts e.id with
      | false => rfl
      | true => exact absurd (Or.inl hc) hnot
    · cases hc : check_for_replies st.messages e.id e.received with
      | false => rfl
      | true => exact absurd (Or.inr hc) hnot

def c3wEmail : Msg :=
  { id := "W3", subject := "Question about order", sender := "c@a.com", body := "hi",
    received := 777600, isRead := false }

def c3wState : GraphState := { messages := [c3wEmail], drafts := [] }

theorem c3_dup_reply_detector_witness :
    c3wEmail ∈ get_emails_needing_replies 864000 4 c3wState
      ↔ ¬((∃ d ∈ c3wState.drafts.take 50,
            strContains c3wEmail.id d.subject = true
            ∨ strContains ("Re: " ++ c3wEmail.id) d.subject = true)
         ∨ (∃ m ∈ c3wState.messages,
            (m.subject = "Re: " ++ c3wEmail.id ∨ m.subject = "RE: " ++ c3wEmail.id)
            ∧ c3wEmail.received < m.received)) :=
  c3_dup_reply_detector 864000 4 c3wState c3wEmail (by decide) (by decide)

theorem processLoop_spec (allowed : List String) (gen : Msg → Option String)
    (createOk : Msg → Bool) (l : List Msg) (st : GraphState) :
    (processLoop allowed gen createOk l st).1 = l.countP (emailHandled allowed gen createOk)
    ∧ (processLoop allowed gen createOk l st).2.1
        = (l.filter (emailFailed allowed gen createOk)).map (emailErrMsg gen createOk) := by
  induction l generalizing st with
  | nil => simp [processLoop]
  | cons e rest ih =>
    cases hg : should_process_email allowed e.sender with
    | false =>
      simp [processLoop, hg, List.countP_cons, List.filter_cons,
        emailHandled, emailFailed, ih]
    | true =>
      cases hge : gen e with
      | none =>
        simp [processLoop, hg, hge, List.countP_cons, List.filter_cons,
          emailHandled, emailFailed, draftGenOk, emailErrMsg, ih]
      | some d =>
        cases hd : (d == "") with
        | true =>
          simp [processLoop, hg, hge, hd, List.countP_cons, List.filter_cons,
            emailHandled, emailFailed, draftGenOk, emailErrMsg, ih]
        | false =>
          cases hco : createOk e with
          | true =>
            simp [processLoop, hg, hge, hd, hco, List.countP_cons, List.filter_cons,
              emailHandled, emailFailed, draftGenOk, emailErrMsg, ih]
          | false =>
            simp [processLoop, hg, hge, hd, hco, List.countP_cons, List.filter_cons,
              emailHandled, emailFailed, draftGenOk, emailErrMsg, ih]

/-- The C8 end-to-end scenario: three candidate emails, the completion
provider failing on the middle one. -/
def c8gen : Msg → Option String := fun e => if e.id == "B" then none else some "ok"

def c8state : GraphState :=
  { messages :=
      [{ id := "A", subject := "S1", sender := "p@x.com", body := "b1",
         received := 800000, isRead := false },
       { id := "B", subject := "S2", sender := "q@x.com", body := "b2",
         received := 790000, isRead := false },
       { id := "C", subject := "S3", sender := "r@x.com", body := "b3",
         received := 780000, isRead := false }],
    drafts := [] }

/-- C8: once authentication succeeds, `process_emails` reports
`success = true` regardless of per-email failures; `processed_count` counts
exactly the gate-passing candidates whose draft generated truthily and whose
creation succeeded; the error list carries exactly one subject-referencing
entry per gate-passing candidate whose generation or creation failed, in
processing order; and in the three-candidate scenario with one completion
failure the result is `processed_count = 2` with exactly one error entry
naming the failed email's subject. -/
theorem c8_processing_result (now : Int) (threshold : Nat) (allowed : List String)
    (gen : Msg → Option String) (createOk : Msg → Bool) (st : GraphState) :
    (process_emails true now threshold allowed gen createOk st).1.success = true
    ∧ (process_emails true now threshold allowed gen createOk st).1.processed_count
        = (get_emails_needing_replies now threshold st).countP
            (emailHandled allowed gen createOk)
    ∧ (process_emails true now threshold allowed gen createOk st).1.errors
        = ((get_emails_needing_replies now threshold st).filter
            (emailFailed allowed gen createOk)).map (emailErrMsg gen createOk)
    ∧ (process_emails true 864000 4 [] c8gen (fun _ => true) c8state).1.processed_count = 2
    ∧ (process_emails true 864000 4 [] c8gen (fun _ => true) c8state).1.errors
        = ["Failed to generate draft response for email: S2"] := by
  refine ⟨?_, ?_, ?_, by decide, by decide⟩
  all_goals
    rw [process_emails]
    cases he : (get_emails_needing_replies now threshold st).isEmpty with
    | true =>
      rw [List.isEmpty_iff] at he
      simp [he]
    | false =>
      simp [he, processLoop_spec]

theorem startsWithChars_extend (p s t : List Char) (h : startsWithChars p s = true) :
    startsWithChars p (s ++ t) = true := by
  induction p generalizing s with
  | nil => rfl
  | cons c cs ih =>
    cases s with
    | nil => simp [startsWithChars] at h
    | cons b bs =>
      simp only [startsWithChars, Bool.and_eq_true] at h
      simp only [List.cons_append, startsWithChars, Bool.and_eq_true]
      exact ⟨h.1, ih bs h.2⟩

theorem startsWithChars_cancel (x y z : List Char) :
    startsWithChars (x ++ y) (x ++ z) = startsWithChars y z := by
  induction x with
  | nil => rfl
  | cons c cs ih => simp [startsWithChars, ih]

theorem containsChars_of_starts (p s : List Char) (h : startsWithChars p s = true) :
    containsChars p s = true := by
  cases s with
  | nil => simpa [containsChars] using h
  | cons c cs => simp [containsChars, h]

theorem containsChars_append_right (p a b : List Char) (h : containsChars p b = true) :
    containsChars p (a ++ b) = true := by
  induction a with
  | nil => simpa using h
  | cons c cs ih => simp [containsChars, ih]

theorem strData_append (a b : String) : (a ++ b).data = a.data ++ b.data := by
  cases a
  cases b
  rfl

theorem strContains_append_right (p a b : String) (h : strContains p b = true) :
    strContains p (a ++ b) = true := by
  unfold strContains at h ⊢
  rw [strData_append]
  exact containsChars_append_right _ _ _ h

set_option maxRecDepth 8192 in
/-- C2 (amended): the simpler fallback instruction set is used precisely when
the training-system path is unavailable or yields no text (a `None` or
empty-string training result), not when the context blocks are empty: under
that hypothesis the compositor branches on age, using the no-apology
same-day prompt for age 0 and, for positive age, the aged prompt that
requests an apology and states the exact day count; the same-day prompt
contains no apology instruction. -/
theorem c2_compositor_fallback (tsAvailable : Bool)
    (examples : List TrainingExample) (templates : List ResponseTemplate)
    (classify : String → Option String) (complete : String → String → Option String)
    (fmt : Int → String) (now : Int) (e : Msg)
    (h : trainingAttempt tsAvailable examples templates classify complete now e = none
       ∨ trainingAttempt tsAvailable examples templates classify complete now e = some "") :
    generate_draft_response tsAvailable examples templates classify complete fmt now e
      = fallbackDraft complete fmt now e
    ∧ (emailAge now e = 0 →
        fallbackDraft complete fmt now e
          = (complete fallbackSystemMsg (promptNew fmt e)).map pyStrip)
    ∧ (emailAge now e ≠ 0 →
        fallbackDraft complete fmt now e
          = (complete fallbackSystemMsg (promptOld fmt e (emailAge now e))).map pyStrip)
    ∧ (0 < emailAge now e →
        strContains (toString (emailAge now e) ++ " days")
            (promptOld fmt e (emailAge now e)) = true
        ∧ strContains "Apologizes for the late response"
            (promptOld fmt e (emailAge now e)) = true)
    ∧ strContains "Apolog"
        (promptNew (fun _ => "1970-01-01 00:00")
          { id := "", subject := "", sender := "", body := "",
            received := 0, isRead := false }) = false := by
  refine ⟨?_, ?_, ?_, ?_, by decide⟩
  · rcases h with h | h
    · unfold generate_draft_response
      rw [h]
    · unfold generate_draft_response
      rw [h]
      rfl
  · intro h0
    simp [fallbackDraft, h0]
  · intro hne
    have hb : (emailAge now e == 0) = false := by simp [hne]
    simp [fallbackDraft, hb]
  · intro _hpos
    constructor
    · unfold promptOld
      apply strContains_append_right
      unfold strContains
      rw [strData_append, strData_append]
      apply containsChars_of_starts
      rw [startsWithChars_cancel]
      rw [strData_append]
      exact startsWithChars_extend _ _ _ (by decide)
    · unfold promptOld
      repeat apply strContains_append_right
      decide

def c2email : Msg :=
  { id := "M1", subject := "Hi", sender := "x@a.com", body := "Question",
    received := 0, isRead := false }

/-- A completion oracle that reveals which instruction set the compositor
sent: it answers `CUSTOMIZED PATH` exactly on the training prompt built with
both context blocks empty, and `FALLBACK PATH` on anything else. -/
def c2complete : String → String → Option String := fun _sys p =>
  if p == customizedPrompt "" "" c2email.body (some "inquiry") (some "professional") 0
  then some "CUSTOMIZED PATH" else some "FALLBACK PATH"

set_option maxRecDepth 40000 in
theorem c2_compositor_fallback_cex :
    get_training_context [] (some "inquiry") (some "professional") = ""
    ∧ get_template_context [] (some "inquiry") = ""
    ∧ generate_draft_response true [] [] (fun _ => some "inquiry") c2complete
        (fun _ => "1970-01-01 00:00") 0 c2email = some "CUSTOMIZED PATH"
    ∧ some "CUSTOMIZED PATH" ≠ some "FALLBACK PATH" := by decide

def c2wComplete : String → String → Option String := fun _ _ => some " ok "

theorem c2_compositor_fallback_witness :
    generate_draft_response false [] [] (fun _ => none) c2wComplete
        (fun _ => "1970-01-01 00:00") 0 c2email
      = fallbackDraft c2wComplete (fun _ => "1970-01-01 00:00") 0 c2email :=
  (c2_compositor_fallback false [] [] (fun _ => none) c2wComplete
    (fun _ => "1970-01-01 00:00") 0 c2email (Or.inl rfl)).1

/-- The generation oracle of the C1 scenario: every candidate yields the same
fixed draft text. -/
def c1gen : Msg → Option String := fun _ => some "Thanks for reaching out."

def c1email : Msg :=
  { id := "AAA", subject := "Hello", sender := "x@a.com", body := "hi",
    received := 777600, isRead := false }

def c1state : GraphState := { messages := [c1email], drafts := [] }

set_option maxRecDepth 40000 in
/-- C1 fails on the code: the first run drafts the one candidate and stores a
draft with subject `Re: Hello` (the original subject), but the Duplicate
Detector searches draft subjects for the email identifier `AAA`, which the
stored subject does not contain; so with the provider state otherwise
unchanged the second run processes the same email again
(`processed_count = 1`, not `0`). -/
theorem c1_idempotence_code_bug :
    (process_emails true 864000 4 [] c1gen (fun _ => true) c1state).1.processed_count = 1
    ∧ (process_emails true 864000 4 [] c1gen (fun _ => true) c1state).2.drafts
        = [{ subject := "Re: Hello", body := "Thanks for reaching out.",
             recipients := ["x@a.com"], replyTo := some "AAA" }]
    ∧ check_for_draft_response
        [{ subject := "Re: Hello", body := "Thanks for reaching out.",
           recipients := ["x@a.com"], replyTo := some "AAA" }] "AAA" = false
    ∧ (process_emails true 864000 4 [] c1gen (fun _ => true)
        ((process_emails true 864000 4 [] c1gen (fun _ => true) c1state).2)).1.processed_count
        = 1 := by decide
